import Mathlib

/-!
Verification development for the receipt-management chatbot pipeline.

Shallow embedding of:
* `src/chatbot/views.py` — the `process_query` request pipeline;
* `src/chatbot/azure_blob.py` — the versioned FAISS index store
  (`download_latest`, `upload_version`);
* `src/chatbot/tasks.py` and `src/squirll/settings/base.py` — the Celery
  task wiring (`CELERY_BEAT_SCHEDULE`);
* the code-generation feedback loop and result formatter of
  `chatbot/utils/query_processor.py`, which the repository imports but whose
  source is not present: those two are modelled from the specification.

Machine-level effects (HTTP transport, Azure SDK internals) are abstracted:
each external call site in `process_query` is an oracle field of `Env`, and
the blob store is a name-to-bytes map updated by atomic operations, matching
the blob-level atomicity of single PUT / synchronous-copy requests.
-/

namespace Squirll

/-! Python string stripping (`str.strip()` in views.py line 42/44) -/

/-- The ASCII whitespace characters stripped by Python `str.strip()`. -/
def isPySpace (c : Char) : Bool :=
  c = ' ' || c = '\t' || c = '\n' || c = '\x0d' || c = '\x0b' || c = '\x0c'

/-- Python `str.strip()`: remove leading and trailing whitespace. -/
def pyStrip (s : String) : String :=
  ⟨((s.data.dropWhile isPySpace).reverse.dropWhile isPySpace).reverse⟩

/-! Data model of the pipeline (views.py) -/

/-- The outcome of executing a generated artifact (spec §3 `ExecutionResult`):
tagged variant, exactly one populated.  `views.py` distinguishes only the
file-typed dict (stage 8) from everything else (stage 9). -/
inductive ExecResult where
  | tabular (rows : List (List String))
  | scalar (v : String)
  | file (filename : String) (stream : List Nat)
  | error (kind msg : String)
deriving DecidableEq, Repr

/-- Stage 8 check of views.py: `isinstance(exec_result, dict) and exec_result.get('type') == 'file'`. -/
def ExecResult.isFile : ExecResult → Bool
  | .file _ _ => true
  | _ => false

/-- One call made by `process_query` to an imported pipeline function,
recorded with the argument that identifies what the stage received. -/
inductive Call where
  | detectMalicious (q : String)
  | loadModelsFile
  | loadFaissIndexes
  | extractTerms (q : String)
  | loadEmbedder
  | searchFaiss (terms : List String)
  | codeGen (q : String)
  | execCode (code : String)
  | formatResults (q : String)
deriving DecidableEq, Repr

/-- The HTTP response `process_query` produces: a `JsonResponse` with a
status code and its payload fields, or a `FileResponse`. -/
inductive Response where
  | json (status : Nat) (fields : List (String × String))
  | fileResponse (filename : String)
deriving DecidableEq, Repr

/-- Oracles for the functions `views.py` imports from
`chatbot.utils.query_processor` plus the two local file/model loads.
`Except String α` models a Python call that either returns or raises. -/
structure Env where
  detect_malicious_intent : String → Except String (Bool × String)
  load_models_file : Except String String
  load_faiss_indexes : Except String Nat
  extract_search_terms : String → Except String (List String)
  search_with_faiss : List String → Nat → Except String (List String)
  get_executable_code_with_feedback :
      String → String → List String → Except String String
  execute_code : String → Except String ExecResult
  format_results_with_gpt : String → ExecResult → Except String String

/-- Shallow embedding of `process_query` (src/chatbot/views.py lines 30–124).
Input: the HTTP method and the optional `query` field of the request body
(`request.data.get('query', '')` / `request.POST.get('query', '')`).
Output: the response together with the trace of pipeline calls made, in
order.  Each numbered stage mirrors the corresponding `try` block. -/
def process_query (env : Env) (method : String) (queryField : Option String) :
    Response × List Call :=
  if method ≠ "POST" then
    (.json 405 [("error", "Only POST requests are supported")], [])
  else
    -- stage 1: pull + validate query
    let user_query := pyStrip (queryField.getD "")
    if user_query = "" then
      (.json 400 [("error", "Query is empty")], [])
    else
      -- stage 2: malicious-intent check
      match env.detect_malicious_intent user_query with
      | .error e =>
          (.json 500 [("stage", "malicious_check"), ("error", e)],
           [.detectMalicious user_query])
      | .ok (is_bad, why) =>
        if is_bad then
          (.json 400 [("stage", "malicious_check"),
                      ("error", "Query not allowed: " ++ why)],
           [.detectMalicious user_query])
        else
          -- stage 3: load models.txt
          match env.load_models_file with
          | .error e =>
              (.json 500 [("stage", "load_models_file"), ("error", e)],
               [.detectMalicious user_query, .loadModelsFile])
          | .ok models_content =>
            -- stage 4: load FAISS indexes
            match env.load_faiss_indexes with
            | .error e =>
                (.json 500 [("stage", "load_faiss"), ("error", e)],
                 [.detectMalicious user_query, .loadModelsFile,
                  .loadFaissIndexes])
            | .ok faiss_data =>
              -- stage 5: NLP extraction + search
              match env.extract_search_terms user_query with
              | .error e =>
                  (.json 500 [("stage", "semantic_search"), ("error", e)],
                   [.detectMalicious user_query, .loadModelsFile,
                    .loadFaissIndexes, .extractTerms user_query])
              | .ok search_terms =>
                match env.search_with_faiss search_terms faiss_data with
                | .error e =>
                    (.json 500 [("stage", "semantic_search"), ("error", e)],
                     [.detectMalicious user_query, .loadModelsFile,
                      .loadFaissIndexes, .extractTerms user_query,
                      .loadEmbedder, .searchFaiss search_terms])
                | .ok faiss_results =>
                  -- stage 6: code generation
                  match env.get_executable_code_with_feedback user_query
                      models_content faiss_results with
                  | .error e =>
                      (.json 500 [("stage", "code_gen"), ("error", e)],
                       [.detectMalicious user_query, .loadModelsFile,
                        .loadFaissIndexes, .extractTerms user_query,
                        .loadEmbedder, .searchFaiss search_terms,
                        .codeGen user_query])
                  | .ok executable_code =>
                    if executable_code = "" ∨
                        executable_code = "Unable to process query" then
                      (.json 400 [("stage", "code_gen"),
                       ("error", "Unable to generate executable code")],
                       [.detectMalicious user_query, .loadModelsFile,
                        .loadFaissIndexes, .extractTerms user_query,
                        .loadEmbedder, .searchFaiss search_terms,
                        .codeGen user_query])
                    else
                      -- stage 7: code execution
                      match env.execute_code executable_code with
                      | .error e =>
                          (.json 500 [("stage", "code_exec"), ("error", e)],
                           [.detectMalicious user_query, .loadModelsFile,
                            .loadFaissIndexes, .extractTerms user_query,
                            .loadEmbedder, .searchFaiss search_terms,
                            .codeGen user_query, .execCode executable_code])
                      | .ok exec_result =>
                        -- stage 8: handle file-type result
                        match exec_result with
                        | .file filename _stream =>
                            (.fileResponse filename,
                             [.detectMalicious user_query, .loadModelsFile,
                              .loadFaissIndexes, .extractTerms user_query,
                              .loadEmbedder, .searchFaiss search_terms,
                              .codeGen user_query,
                              .execCode executable_code])
                        | exec_result =>
                          -- stage 9: format + return JSON
                          match env.format_results_with_gpt user_query
                              exec_result with
                          | .error e =>
                              (.json 500 [("stage", "format_result"),
                                          ("error", e)],
                               [.detectMalicious user_query, .loadModelsFile,
                                .loadFaissIndexes, .extractTerms user_query,
                                .loadEmbedder, .searchFaiss search_terms,
                                .codeGen user_query, .execCode executable_code,
                                .formatResults user_query])
                          | .ok pretty =>
                              (.json 200 [("query", user_query),
                                          ("code", executable_code),
                                          ("result", pretty)],
                               [.detectMalicious user_query, .loadModelsFile,
                                .loadFaissIndexes, .extractTerms user_query,
                                .loadEmbedder, .searchFaiss search_terms,
                                .codeGen user_query, .execCode executable_code,
                                .formatResults user_query])

/-! Code-generation feedback loop

`get_executable_code_with_feedback` lives in
`chatbot/utils/query_processor.py`, which is imported by views.py and
tests.py but is not part of the source tree; it is modelled from the
specification (§4.6). -/

/-- Terminal state of the feedback loop: an accepted valid artifact or
exhaustion of the attempt budget. -/
inductive LoopOutcome where
  | accepted (artifact : String)
  | exhausted
deriving DecidableEq, Repr

/-- Modelled from the spec: the bounded attempt/validate/retry cycle of
`get_executable_code_with_feedback` (§4.6), whose source
(`chatbot/utils/query_processor.py`) is not in the tree.  `gen n fb`
requests a candidate from the model for attempt number `n`, seeded with the
previous attempt's validation failure message `fb` (none on attempt 1);
`validate` returns `none` on a valid candidate and `some msg` on an invalid
one.  Returns the terminal outcome and the number of generation calls
made. -/
def feedbackLoop (gen : Nat → Option String → String)
    (validate : String → Option String) :
    Nat → Nat → Option String → LoopOutcome × Nat
  | 0, _, _ => (.exhausted, 0)
  | remaining + 1, attemptNo, fb =>
      let candidate := gen attemptNo fb
      match validate candidate with
      | none => (.accepted candidate, 1)
      | some msg =>
          let r := feedbackLoop gen validate remaining (attemptNo + 1) (some msg)
          (r.1, r.2 + 1)

/-- Modelled from the spec: the sentinel failure value of the feedback loop
(§4.6 terminal contract, §7(d)); views.py line 91 compares against this
exact string. -/
def sentinelFailure : String := "Unable to process query"

/-- Modelled from the spec: `get_executable_code_with_feedback` runs the
bounded loop starting at attempt 1 with no feedback and returns either the
accepted artifact or the sentinel failure value — never an exception. -/
def get_executable_code_with_feedback (gen : Nat → Option String → String)
    (validate : String → Option String) (max_attempts : Nat) : String :=
  match (feedbackLoop gen validate max_attempts 1 none).1 with
  | .accepted artifact => artifact
  | .exhausted => sentinelFailure

/-! Result formatter

`format_results_with_gpt` also lives in the absent
`chatbot/utils/query_processor.py`; modelled from the specification
(§4.8). -/

/-- Modelled from the spec: `format_results_with_gpt` (§4.8), whose source
is not in the tree.  `summarizer` is the underlying model call, which may
fail (`none`); the formatter handles every `ExecResult` variant and
degrades a summarization failure to a generic answer instead of raising. -/
def format_results_with_gpt (summarizer : String → ExecResult → Option String)
    (query : String) (result : ExecResult) : String :=
  match summarizer query result with
  | some s => s
  | none => "could not summarize the result"

/-! Versioned index store (src/chatbot/azure_blob.py)

The store is a map from blob name to byte content.  Each Azure request that
`upload_version` issues — one `upload_blob` PUT and one synchronous
server-side copy — commits atomically at the blob level; `download_latest`
issues a single GET of the alias blob.  The interleaving model below
exposes exactly those commit points. -/

/-- Byte content of a blob. -/
abbrev ByteSeq := List Nat

/-- The container's state: newest binding for a name wins. -/
abbrev BlobStore := List (String × ByteSeq)

/-- Write (create or overwrite) a blob. -/
def setBlob (store : BlobStore) (name : String) (content : ByteSeq) : BlobStore :=
  (name, content) :: store

/-- Read a blob's content, `none` when the blob does not exist. -/
def getBlob (store : BlobStore) (name : String) : Option ByteSeq :=
  match store with
  | [] => none
  | (n, c) :: rest => if n = name then some c else getBlob rest name

/-- Embedding of `PREF = settings.FAISS_PREFIX.rstrip("/") + "/"` (azure_blob.py line 27). -/
def PREF (rawPref : String) : String :=
  ⟨((rawPref.data.reverse.dropWhile (· = '/')).reverse)⟩ ++ "/"

/-- The immutable versioned snapshot name, `f"{PREF}{kind}_{ts}.faiss"`
(azure_blob.py line 46); `ts` is `datetime.now(timezone.utc).strftime("%Y%m%d%H%M%S")`,
a 14-character digit string. -/
def version_name (pref kind ts : String) : String :=
  pref ++ kind ++ "_" ++ ts ++ ".faiss"

/-- The mutable latest alias name, `f"{PREF}{kind}_latest.faiss"`
(azure_blob.py lines 36 and 47). -/
def latest_name (pref kind : String) : String :=
  pref ++ kind ++ "_latest.faiss"

/-- One atomic blob-level operation issued by the store wrapper. -/
inductive BlobOp where
  | put (name : String) (content : ByteSeq)
  | copy (src dst : String)
deriving DecidableEq, Repr

/-- Effect of one atomic operation on the container. -/
def applyOp (store : BlobStore) : BlobOp → BlobStore
  | .put name content => setBlob store name content
  | .copy src dst =>
      match getBlob store src with
      | some content => setBlob store dst content
      | none => store

/-- Effect of a sequence of operations, in order. -/
def applyOps (ops : List BlobOp) (store : BlobStore) : BlobStore :=
  ops.foldl applyOp store

/-- The atomic operations `upload_version kind src_path` issues, in order
(azure_blob.py lines 43–64): (1) upload the versioned blob, (3) server-side
synchronous copy of it onto the latest alias.  Step (2), SAS generation, is
local computation and touches no blob. -/
def uploadOps (pref kind ts : String) (src : ByteSeq) : List BlobOp :=
  [.put (version_name pref kind ts) src,
   .copy (version_name pref kind ts) (latest_name pref kind)]

/-- Embedding of `upload_version` when every request succeeds: the store
after both operations commit. -/
def upload_version (pref kind ts : String) (src : ByteSeq)
    (store : BlobStore) : BlobStore :=
  applyOps (uploadOps pref kind ts src) store

/-- Embedding of `download_latest kind` (azure_blob.py lines 35–40): a single
GET of the latest alias. -/
def download_latest (pref kind : String) (store : BlobStore) : Option ByteSeq :=
  getBlob store (latest_name pref kind)

/-- Outcome of the versioned-blob upload in `upload_version`: success, or a
raised exception with whatever the failed PUT left at the versioned name
(`none` = nothing committed, `some b` = bytes `b` committed before the
error surfaced). -/
inductive UploadOutcome where
  | success
  | failure (leftover : Option ByteSeq)
deriving DecidableEq, Repr

/-- Embedding of `upload_version` with a fallible step-1 upload.  When `upload_blob`
raises, the exception propagates out of `upload_version` (there is no
handler in azure_blob.py), so SAS generation and the copy to the latest
alias never run.  Returns whether an exception escaped, and the resulting
store. -/
def upload_version_try (pref kind ts : String) (src : ByteSeq)
    (outcome : UploadOutcome) (store : BlobStore) :
    Except String BlobStore × BlobStore :=
  match outcome with
  | .success =>
      let s := upload_version pref kind ts src store
      (.ok s, s)
  | .failure leftover =>
      let s := match leftover with
               | none => store
               | some b => setBlob store (version_name pref kind ts) b
      (.error "upload_blob failed", s)

/-! Celery wiring (src/chatbot/tasks.py, src/squirll/settings/base.py) -/

/-- The Celery tasks registered by `src/chatbot/tasks.py`: the `@shared_task`
decorated functions, by name. -/
def registeredCeleryTasks : List String :=
  ["append_faiss_vectors", "nightly_rebuild_faiss"]

/-- Value of `CELERY_BEAT_SCHEDULE` in `src/squirll/settings/base.py` lines
260–262: the dict is empty (its body is the placeholder comment
`#Add scheduled tasks here`).  Entries would map a schedule name to the
task it dispatches. -/
def CELERY_BEAT_SCHEDULE : List (String × String) := []

/-- The Celery tasks dispatched (via `.delay` / `.apply_async`) anywhere in
the repository's request handlers, model signal receivers or services — in
particular by the receipt-creation paths of `src/receipt_mgmt`: there is no
such call site, for any task. -/
def dispatchedCeleryTasks : List String := []

/-- A stub oracle environment in which every pipeline stage succeeds, used
to instantiate the pipeline theorems on concrete inputs. -/
def benignStubEnv : Env where
  detect_malicious_intent := fun _ => .ok (false, "")
  load_models_file := .ok "models"
  load_faiss_indexes := .ok 0
  extract_search_terms := fun q => .ok [q]
  search_with_faiss := fun terms _ => .ok terms
  get_executable_code_with_feedback := fun _ _ _ => .ok "Receipt.objects.count()"
  execute_code := fun _ => .ok (.scalar "42")
  format_results_with_gpt := fun _ _ => .ok "You have 42 receipts."

/-- A model stub: always returns the same candidate artifact. -/
def stubGen : Nat → Option String → String := fun _ _ => "candidate"

/-- A validator stub that rejects every candidate. -/
def alwaysInvalid : String → Option String := fun _ => some "invalid artifact"

/-- The query-text argument a recorded call received, when it takes one. -/
def callQueryArg : Call → Option String
  | .detectMalicious q => some q
  | .extractTerms q => some q
  | .codeGen q => some q
  | .formatResults q => some q
  | _ => none

/-! Helper lemmas and claim theorems -/


theorem getBlob_set_same (s : BlobStore) (n : String) (c : ByteSeq) :
    getBlob (setBlob s n c) n = some c := by
  simp [getBlob, setBlob]

theorem getBlob_set_other (s : BlobStore) (n m : String) (c : ByteSeq)
    (h : n ≠ m) : getBlob (setBlob s n c) m = getBlob s m := by
  simp [getBlob, setBlob, h]

theorem version_name_ne_latest_name (pref kind ts : String)
    (hts : ts.length = 14) : version_name pref kind ts ≠ latest_name pref kind := by
  intro h
  have hl := congrArg String.length h
  have e1 : ("_" : String).length = 1 := rfl
  have e2 : (".faiss" : String).length = 6 := rfl
  have e3 : ("_latest.faiss" : String).length = 13 := rfl
  simp only [version_name, latest_name, String.length_append, hts, e1, e2, e3] at hl
  omega

theorem version_name_inj (pref kind ts ts2 : String)
    (h : version_name pref kind ts = version_name pref kind ts2) : ts = ts2 := by
  have hd := congrArg String.data h
  simp only [version_name, String.data_append] at hd
  exact String.ext (List.append_cancel_left (List.append_cancel_right hd))

/-- C4: promotion of the latest alias is atomic with respect to concurrent
readers.  A `download_latest` running concurrently with `upload_version`
observes the store after some prefix of the writer's atomic blob
operations, and at every such point it reads either the complete
pre-promotion latest blob or the complete new snapshot — never a partial
object, because the alias is only changed by one server-side copy of the
already-written versioned blob. -/
theorem C4_latest_promotion_atomic (pref kind ts : String) (src : ByteSeq)
    (store : BlobStore) (k : Nat) (hts : ts.length = 14) :
    download_latest pref kind (applyOps ((uploadOps pref kind ts src).take k) store) =
        download_latest pref kind store ∨
    download_latest pref kind (applyOps ((uploadOps pref kind ts src).take k) store) =
        some src := by
  have hne := version_name_ne_latest_name pref kind ts hts
  match k with
  | 0 => left; rfl
  | 1 =>
      left
      simp [uploadOps, applyOps, applyOp, download_latest, getBlob_set_other _ _ _ _ hne]
  | (n+2) =>
      right
      simp [uploadOps, applyOps, applyOp, download_latest, getBlob_set_same,
            getBlob_set_other, List.take]

/-- Witness for C4 at a concrete timestamp, store and interleaving point. -/
theorem C4_witness :
    ("20250101120000" : String).length = 14 ∧
    (download_latest (PREF "prod") "receipts"
        (applyOps ((uploadOps (PREF "prod") "receipts" "20250101120000" [1, 2]).take 2) []) =
      download_latest (PREF "prod") "receipts" ([] : BlobStore) ∨
     download_latest (PREF "prod") "receipts"
        (applyOps ((uploadOps (PREF "prod") "receipts" "20250101120000" [1, 2]).take 2) []) =
      some [1, 2]) :=
  ⟨rfl, C4_latest_promotion_atomic (PREF "prod") "receipts" "20250101120000" [1, 2] [] 2 rfl⟩

/-- C5: when the upload of the versioned snapshot blob fails, the exception
propagates to the caller of `upload_version` and the latest alias is left
exactly as it was — whatever the failed PUT left at the versioned name, the
copy that would repoint the alias never runs. -/
theorem C5_failed_write_leaves_latest (pref kind ts : String) (src : ByteSeq)
    (leftover : Option ByteSeq) (store : BlobStore) (hts : ts.length = 14) :
    (upload_version_try pref kind ts src (.failure leftover) store).1 =
        .error "upload_blob failed" ∧
    download_latest pref kind
        (upload_version_try pref kind ts src (.failure leftover) store).2 =
      download_latest pref kind store := by
  have hne := version_name_ne_latest_name pref kind ts hts
  refine ⟨rfl, ?_⟩
  match leftover with
  | none => rfl
  | some b =>
      simp [upload_version_try, download_latest, getBlob_set_other _ _ _ _ hne]

/-- Witness for C5: a failed upload over a store whose latest alias holds a
previous snapshot leaves that alias untouched. -/
theorem C5_witness :
    ("20250101120000" : String).length = 14 ∧
    (upload_version_try (PREF "prod") "receipts" "20250101120000" [1]
        (.failure (some [9])) [(latest_name (PREF "prod") "receipts", [7])]).1 =
      .error "upload_blob failed" ∧
    download_latest (PREF "prod") "receipts"
        (upload_version_try (PREF "prod") "receipts" "20250101120000" [1]
          (.failure (some [9])) [(latest_name (PREF "prod") "receipts", [7])]).2 =
      download_latest (PREF "prod") "receipts"
        [(latest_name (PREF "prod") "receipts", [7])] :=
  ⟨rfl, C5_failed_write_leaves_latest (PREF "prod") "receipts" "20250101120000" [1]
      (some [9]) [(latest_name (PREF "prod") "receipts", [7])] rfl⟩

/-- Counterexample for C8 as stated: the timestamp `upload_version` derives
has one-second resolution, so two calls within the same UTC second (here
both at `20250101120000`) produce the same snapshot name, and the second
call overwrites the first versioned snapshot (`upload_blob(...,
overwrite=True)`): the name that held `[0]` afterwards holds `[1]`. -/
theorem C8_counterexample :
    getBlob (upload_version (PREF "prod") "receipts" "20250101120000" [0]
        ([] : BlobStore))
      (version_name (PREF "prod") "receipts" "20250101120000") = some [0] ∧
    getBlob (upload_version (PREF "prod") "receipts" "20250101120000" [1]
        (upload_version (PREF "prod") "receipts" "20250101120000" [0] []))
      (version_name (PREF "prod") "receipts" "20250101120000") = some [1] ∧
    ([0] : ByteSeq) ≠ [1] := by
  refine ⟨rfl, rfl, by decide⟩

/-- C8 (amended): every call writes the snapshot under
`<prefix><kind>_<timestamp>.faiss` and repoints
`<prefix><kind>_latest.faiss` at it, and calls whose second-resolution
timestamps differ produce distinct names and leave each other's versioned
snapshots untouched. -/
theorem C8_amended_versioned_naming (pref kind ts ts2 : String) (src : ByteSeq)
    (store : BlobStore) (hts : ts.length = 14) (hts2 : ts2.length = 14)
    (hne : ts2 ≠ ts) :
    getBlob (upload_version pref kind ts src store)
        (version_name pref kind ts) = some src ∧
    download_latest pref kind (upload_version pref kind ts src store) = some src ∧
    getBlob (upload_version pref kind ts src store)
        (version_name pref kind ts2) =
      getBlob store (version_name pref kind ts2) := by
  have h1 := version_name_ne_latest_name pref kind ts hts
  have h2 := version_name_ne_latest_name pref kind ts2 hts2
  have h3 : version_name pref kind ts ≠ version_name pref kind ts2 :=
    fun h => hne (version_name_inj pref kind ts2 ts h.symm)
  refine ⟨?_, ?_, ?_⟩
  · simp [upload_version, uploadOps, applyOps, applyOp, getBlob_set_same,
      getBlob_set_other _ _ _ _ (Ne.symm h1)]
  · simp [upload_version, uploadOps, applyOps, applyOp, download_latest,
      getBlob_set_same, getBlob_set_other _ _ _ _ h1]
  · simp [upload_version, uploadOps, applyOps, applyOp, getBlob_set_same,
      getBlob_set_other _ _ _ _ (Ne.symm h2), getBlob_set_other _ _ _ _ h3]

/-- Witness for the amended C8 at two concrete distinct timestamps. -/
theorem C8_amended_witness :
    ("20250101120000" : String).length = 14 ∧
    ("20250101120001" : String).length = 14 ∧
    ("20250101120001" : String) ≠ "20250101120000" ∧
    getBlob (upload_version (PREF "prod") "receipts" "20250101120000" [5]
        [(version_name (PREF "prod") "receipts" "20250101120001", [3])])
      (version_name (PREF "prod") "receipts" "20250101120000") = some [5] ∧
    download_latest (PREF "prod") "receipts"
      (upload_version (PREF "prod") "receipts" "20250101120000" [5]
        [(version_name (PREF "prod") "receipts" "20250101120001", [3])]) = some [5] ∧
    getBlob (upload_version (PREF "prod") "receipts" "20250101120000" [5]
        [(version_name (PREF "prod") "receipts" "20250101120001", [3])])
      (version_name (PREF "prod") "receipts" "20250101120001") =
      getBlob [(version_name (PREF "prod") "receipts" "20250101120001", [3])]
        (version_name (PREF "prod") "receipts" "20250101120001") :=
  have h := C8_amended_versioned_naming (PREF "prod") "receipts" "20250101120000"
    "20250101120001" [5]
    [(version_name (PREF "prod") "receipts" "20250101120001", [3])]
    rfl rfl (by decide)
  ⟨rfl, rfl, by decide, h.1, h.2.1, h.2.2⟩




theorem feedbackLoop_calls_le (gen : Nat → Option String → String)
    (validate : String → Option String) :
    ∀ n k fb, (feedbackLoop gen validate n k fb).2 ≤ n := by
  intro n
  induction n with
  | zero => intro k fb; simp [feedbackLoop]
  | succ m ih =>
      intro k fb
      simp only [feedbackLoop]
      cases h : validate (gen k fb) with
      | none => simp
      | some msg =>
          have := ih (k + 1) (some msg)
          simp only []
          omega

theorem feedbackLoop_terminal (gen : Nat → Option String → String)
    (validate : String → Option String) :
    ∀ n k fb,
      (∃ a, (feedbackLoop gen validate n k fb).1 = .accepted a ∧ validate a = none) ∨
      (feedbackLoop gen validate n k fb).1 = .exhausted := by
  intro n
  induction n with
  | zero => intro k fb; right; rfl
  | succ m ih =>
      intro k fb
      simp only [feedbackLoop]
      cases h : validate (gen k fb) with
      | none => left; exact ⟨gen k fb, rfl, h⟩
      | some msg => simpa using ih (k + 1) (some msg)

/-- C2: the code-generation feedback loop, at the `max_attempts = 3` budget
`process_query` passes it, makes at most 3 generation calls and terminates
in either an accepted valid artifact (returned to the caller) or the
exhausted state (returning the sentinel) — for every model stub and every
validator, including one that never accepts. -/
theorem C2_feedback_loop_bounded_terminates (gen : Nat → Option String → String)
    (validate : String → Option String) :
    (feedbackLoop gen validate 3 1 none).2 ≤ 3 ∧
    ((∃ a, (feedbackLoop gen validate 3 1 none).1 = .accepted a ∧
        validate a = none ∧ get_executable_code_with_feedback gen validate 3 = a) ∨
     ((feedbackLoop gen validate 3 1 none).1 = .exhausted ∧
        get_executable_code_with_feedback gen validate 3 = sentinelFailure)) := by
  refine ⟨feedbackLoop_calls_le gen validate 3 1 none, ?_⟩
  rcases feedbackLoop_terminal gen validate 3 1 none with ⟨a, ha, hv⟩ | h
  · exact .inl ⟨a, ha, hv, by simp [get_executable_code_with_feedback, ha]⟩
  · exact .inr ⟨h, by simp [get_executable_code_with_feedback, h]⟩

theorem feedbackLoop_exhausted_of_all_invalid (gen : Nat → Option String → String)
    (validate : String → Option String) (hv : ∀ c, (validate c).isSome) :
    ∀ n k fb, (feedbackLoop gen validate n k fb).1 = .exhausted := by
  intro n
  induction n with
  | zero => intro k fb; rfl
  | succ m ih =>
      intro k fb
      simp only [feedbackLoop]
      cases h : validate (gen k fb) with
      | none => have := hv (gen k fb); simp [h] at this
      | some msg => simpa using ih (k + 1) (some msg)

/-- C1: when the safety gate classifies the (stripped, non-empty) query as
malicious, `process_query` returns HTTP 400 with the "Query not allowed"
message carrying the classifier reason, and its call trace is exactly the
one classifier call — no index load, embedding, search, code generation or
execution happens. -/
theorem C1_safety_gate_short_circuits (env : Env) (q why : String)
    (hq : pyStrip q ≠ "")
    (hdet : env.detect_malicious_intent (pyStrip q) = .ok (true, why)) :
    process_query env "POST" (some q) =
      (.json 400 [("stage", "malicious_check"),
                  ("error", "Query not allowed: " ++ why)],
       [.detectMalicious (pyStrip q)]) := by
  simp [process_query, hq, hdet]

/-- C7: a missing query field, or one that strips to the empty string, is
rejected with HTTP 400 "Query is empty" and an empty call trace: no
pipeline stage (safety gate included) runs. -/
theorem C7_empty_query_rejected_before_any_stage (env : Env)
    (queryField : Option String) (h : pyStrip (queryField.getD "") = "") :
    process_query env "POST" queryField =
      (.json 400 [("error", "Query is empty")], []) := by
  simp [process_query, h]


/-- Witness for C1: a concrete malicious classification short-circuits the
pipeline. -/
theorem C1_witness :
    pyStrip " delete all my data " ≠ "" ∧
    process_query
      { benignStubEnv with
        detect_malicious_intent := fun _ => .ok (true, "destructive request") }
      "POST" (some " delete all my data ") =
      (.json 400 [("stage", "malicious_check"),
                  ("error", "Query not allowed: destructive request")],
       [.detectMalicious (pyStrip " delete all my data ")]) :=
  ⟨by decide,
   C1_safety_gate_short_circuits
     { benignStubEnv with
       detect_malicious_intent := fun _ => .ok (true, "destructive request") }
     " delete all my data " "destructive request" (by decide) rfl⟩

/-- Witness for C7 at a missing query field and at a whitespace-only
query. -/
theorem C7_witness :
    pyStrip ((none : Option String).getD "") = "" ∧
    pyStrip ((some "   " : Option String).getD "") = "" ∧
    process_query benignStubEnv "POST" none =
      (.json 400 [("error", "Query is empty")], []) ∧
    process_query benignStubEnv "POST" (some "   ") =
      (.json 400 [("error", "Query is empty")], []) :=
  ⟨rfl, by decide,
   C7_empty_query_rejected_before_any_stage benignStubEnv none rfl,
   C7_empty_query_rejected_before_any_stage benignStubEnv (some "   ") (by decide)⟩

/-- C3: when every candidate is invalid the feedback loop returns the
sentinel "Unable to process query" rather than raising, and `process_query`
treats that sentinel as a normal terminal negative outcome: HTTP 400 tagged
with stage `code_gen`, with a call trace that stops at code generation — no
artifact is ever executed. -/
theorem C3_exhaustion_sentinel_is_terminal (gen : Nat → Option String → String)
    (validate : String → Option String) (hv : ∀ c, (validate c).isSome)
    (env : Env) (q why models : String) (fd : Nat) (terms res : List String)
    (hq : pyStrip q ≠ "")
    (hdet : env.detect_malicious_intent (pyStrip q) = .ok (false, why))
    (hm : env.load_models_file = .ok models)
    (hf : env.load_faiss_indexes = .ok fd)
    (he : env.extract_search_terms (pyStrip q) = .ok terms)
    (hs : env.search_with_faiss terms fd = .ok res)
    (hg : env.get_executable_code_with_feedback (pyStrip q) models res =
        .ok (get_executable_code_with_feedback gen validate 3)) :
    get_executable_code_with_feedback gen validate 3 = sentinelFailure ∧
    process_query env "POST" (some q) =
      (.json 400 [("stage", "code_gen"),
                  ("error", "Unable to generate executable code")],
       [.detectMalicious (pyStrip q), .loadModelsFile, .loadFaissIndexes,
        .extractTerms (pyStrip q), .loadEmbedder, .searchFaiss terms,
        .codeGen (pyStrip q)]) := by
  have hsent : get_executable_code_with_feedback gen validate 3 = sentinelFailure := by
    simp [get_executable_code_with_feedback,
      feedbackLoop_exhausted_of_all_invalid gen validate hv 3 1 none]
  rw [hsent] at hg
  refine ⟨hsent, ?_⟩
  simp [process_query, hq, hdet, hm, hf, he, hs, hg, sentinelFailure]

/-- Witness for C3: an always-invalid validator drives the pipeline to the
stage-tagged 400 with no execution call. -/
theorem C3_witness :
    get_executable_code_with_feedback stubGen alwaysInvalid 3 = sentinelFailure ∧
    process_query
      { benignStubEnv with
        get_executable_code_with_feedback := fun _ _ _ =>
          .ok (get_executable_code_with_feedback stubGen alwaysInvalid 3) }
      "POST" (some "total spend") =
      (.json 400 [("stage", "code_gen"),
                  ("error", "Unable to generate executable code")],
       [.detectMalicious (pyStrip "total spend"), .loadModelsFile,
        .loadFaissIndexes, .extractTerms (pyStrip "total spend"), .loadEmbedder,
        .searchFaiss [pyStrip "total spend"], .codeGen (pyStrip "total spend")]) :=
  C3_exhaustion_sentinel_is_terminal stubGen alwaysInvalid (fun _ => rfl)
    { benignStubEnv with
      get_executable_code_with_feedback := fun _ _ _ =>
        .ok (get_executable_code_with_feedback stubGen alwaysInvalid 3) }
    "total spend" "" "models" 0 [pyStrip "total spend"] [pyStrip "total spend"]
    (by decide) rfl rfl rfl rfl rfl rfl

/-- C6: for every non-file `ExecResult` variant — the `Error` variant
included — the formatting stage produces an answer and `process_query`
returns it as a successful (HTTP 200) response; when the underlying
summarizer fails, the formatter degrades to the generic "could not
summarize" answer instead of failing the request. -/
theorem C6_formatter_handles_every_variant
    (summarizer : String → ExecResult → Option String)
    (env : Env) (q why models code : String) (fd : Nat) (terms res : List String)
    (r : ExecResult)
    (hq : pyStrip q ≠ "")
    (hdet : env.detect_malicious_intent (pyStrip q) = .ok (false, why))
    (hm : env.load_models_file = .ok models)
    (hf : env.load_faiss_indexes = .ok fd)
    (he : env.extract_search_terms (pyStrip q) = .ok terms)
    (hs : env.search_with_faiss terms fd = .ok res)
    (hg : env.get_executable_code_with_feedback (pyStrip q) models res = .ok code)
    (hc1 : code ≠ "") (hc2 : code ≠ "Unable to process query")
    (hex : env.execute_code code = .ok r)
    (hnf : r.isFile = false)
    (hfmt : ∀ s t, env.format_results_with_gpt s t =
        .ok (format_results_with_gpt summarizer s t)) :
    process_query env "POST" (some q) =
      (.json 200 [("query", pyStrip q), ("code", code),
                  ("result", format_results_with_gpt summarizer (pyStrip q) r)],
       [.detectMalicious (pyStrip q), .loadModelsFile, .loadFaissIndexes,
        .extractTerms (pyStrip q), .loadEmbedder, .searchFaiss terms,
        .codeGen (pyStrip q), .execCode code, .formatResults (pyStrip q)]) ∧
    (summarizer (pyStrip q) r = none →
      format_results_with_gpt summarizer (pyStrip q) r =
        "could not summarize the result") := by
  constructor
  · cases r with
    | file filename stream => simp [ExecResult.isFile] at hnf
    | tabular rows =>
        simp [process_query, hq, hdet, hm, hf, he, hs, hg, hc1, hc2, hex, hfmt]
    | scalar v =>
        simp [process_query, hq, hdet, hm, hf, he, hs, hg, hc1, hc2, hex, hfmt]
    | error kind msg =>
        simp [process_query, hq, hdet, hm, hf, he, hs, hg, hc1, hc2, hex, hfmt]
  · intro hnone
    simp [format_results_with_gpt, hnone]

/-- Witness for C6: an execution error plus a failing summarizer still
yields a 200 response carrying the generic answer. -/
theorem C6_witness :
    (ExecResult.error "ZeroDivisionError" "division by zero").isFile = false ∧
    process_query
      { benignStubEnv with
        execute_code := fun _ =>
          .ok (.error "ZeroDivisionError" "division by zero"),
        format_results_with_gpt := fun s t =>
          .ok (format_results_with_gpt (fun _ _ => none) s t) }
      "POST" (some "total spend") =
      (.json 200 [("query", pyStrip "total spend"),
                  ("code", "Receipt.objects.count()"),
                  ("result", "could not summarize the result")],
       [.detectMalicious (pyStrip "total spend"), .loadModelsFile,
        .loadFaissIndexes, .extractTerms (pyStrip "total spend"), .loadEmbedder,
        .searchFaiss [pyStrip "total spend"], .codeGen (pyStrip "total spend"),
        .execCode "Receipt.objects.count()",
        .formatResults (pyStrip "total spend")]) :=
  have h := C6_formatter_handles_every_variant (fun _ _ => none)
    { benignStubEnv with
      execute_code := fun _ =>
        .ok (.error "ZeroDivisionError" "division by zero"),
      format_results_with_gpt := fun s t =>
        .ok (format_results_with_gpt (fun _ _ => none) s t) }
    "total spend" "" "models" "Receipt.objects.count()" 0
    [pyStrip "total spend"] [pyStrip "total spend"]
    (.error "ZeroDivisionError" "division by zero")
    (by decide) rfl rfl rfl rfl rfl rfl (by decide) (by decide) rfl rfl
    (fun _ _ => rfl)
  ⟨rfl, h.1⟩

theorem process_query_trace_query_args (env : Env) (method : String)
    (queryField : Option String) :
    ∀ c ∈ (process_query env method queryField).2, ∀ s, callQueryArg c = some s →
      s = pyStrip (queryField.getD "") := by
  intro c hc s hs
  simp only [process_query] at hc
  repeat' split at hc
  all_goals simp_all [callQueryArg]
  all_goals (rcases hc with h | h | h | h | h | h | h | h | h <;> simp_all)

theorem process_query_success_echoes_query (env : Env) (method : String)
    (queryField : Option String) (fields : List (String × String))
    (h : (process_query env method queryField).1 = .json 200 fields) :
    ("query", pyStrip (queryField.getD "")) ∈ fields := by
  simp only [process_query] at h
  repeat' split at h
  all_goals simp_all
  all_goals (exact h ▸ List.mem_cons_self _ _)

theorem pyStrip_eq_empty (q : String) (h : q.data.all isPySpace = true) :
    pyStrip q = "" := by
  have hdw : q.data.dropWhile isPySpace = [] :=
    List.dropWhile_eq_nil_iff.2 (fun x hx => (List.all_eq_true.1 h) x hx)
  simp [pyStrip, hdw]

theorem process_query_rejects_blank (env : Env) (queryField : Option String)
    (h : pyStrip (queryField.getD "") = "") :
    process_query env "POST" queryField =
      (.json 400 [("error", "Query is empty")], []) := by
  simp [process_query, h]

/-- C10: the incoming query is stripped before any processing — a
whitespace-only query is rejected exactly like a missing one with the
"Query is empty" 400 and an empty trace; every recorded stage call that
takes the query text received exactly the stripped text; and the success
response echoes the stripped text in its `query` field. -/
theorem C10_query_stripped_before_processing (env : Env) (q : String) :
    (q.data.all isPySpace = true →
      process_query env "POST" (some q) =
        (.json 400 [("error", "Query is empty")], []) ∧
      process_query env "POST" (some q) = process_query env "POST" none) ∧
    (∀ c ∈ (process_query env "POST" (some q)).2, ∀ s, callQueryArg c = some s →
      s = pyStrip q) ∧
    (∀ fields, (process_query env "POST" (some q)).1 = .json 200 fields →
      ("query", pyStrip q) ∈ fields) := by
  refine ⟨fun h => ?_, ?_, ?_⟩
  · have h1 := process_query_rejects_blank env (some q)
      (by simpa using pyStrip_eq_empty q h)
    have h2 := process_query_rejects_blank env none rfl
    exact ⟨h1, h1.trans h2.symm⟩
  · simpa using process_query_trace_query_args env "POST" (some q)
  · intro fields hf
    simpa using process_query_success_echoes_query env "POST" (some q) fields hf

/-- Witness for C10 at a whitespace-only query and at a padded query whose
success response echoes the stripped text. -/
theorem C10_witness :
    (" \t ".data.all isPySpace = true ∧
      process_query benignStubEnv "POST" (some " \t ") =
        (.json 400 [("error", "Query is empty")], []) ∧
      process_query benignStubEnv "POST" (some " \t ") =
        process_query benignStubEnv "POST" none) ∧
    ("query", pyStrip "  total spend  ") ∈
      [("query", pyStrip "  total spend  "), ("code", "Receipt.objects.count()"),
       ("result", "You have 42 receipts.")] :=
  have hws := (C10_query_stripped_before_processing benignStubEnv " \t ").1 (by decide)
  have hecho := (C10_query_stripped_before_processing benignStubEnv
      "  total spend  ").2.2
    [("query", pyStrip "  total spend  "), ("code", "Receipt.objects.count()"),
     ("result", "You have 42 receipts.")] rfl
  ⟨⟨by decide, hws.1, hws.2⟩, hecho⟩

/-- C9, evaluated on the code: both maintenance jobs exist as registered
Celery tasks, but the beat schedule is empty (so `nightly_rebuild_faiss` is
not dispatched on any schedule) and no code path dispatches
`append_faiss_vectors` on new-record events. -/
theorem C9_maintenance_jobs_not_wired :
    "append_faiss_vectors" ∈ registeredCeleryTasks ∧
    "nightly_rebuild_faiss" ∈ registeredCeleryTasks ∧
    CELERY_BEAT_SCHEDULE = [] ∧
    dispatchedCeleryTasks = [] :=
  ⟨by decide, by decide, rfl, rfl⟩

end Squirll
